import Mathlib

/-!
# Verification of the blog content API (router `src/routes/blog.ts` and its spec'd core)

The repository exposes an Express router for a blog API.  The router file is
the only source file available; the controllers, service and repository it
wires up are described by the specification (§3–§7).  We embed:

* the router's six route registrations exactly as declared in
  `src/routes/blog.ts` (method, path pattern, middleware chain), together
  with Express's first-match dispatch semantics;
* the Blog data model, repository and service operations, modelled from the
  spec where the implementing source is not present.
-/

namespace BlogApi

/-- A comment on a blog post (spec §3). -/
structure Comment where
  id : String
  author : String
  content : String
  createdAt : Nat
deriving DecidableEq, Repr

/-- A blog post (spec §3).  Category/Tag references are kept as id strings;
`likes` is a list of user ids (at most one per user, not needed here). -/
structure Blog where
  id : String
  title : String
  content : String
  author : String
  imageUrl : Option String
  categories : List String
  tags : List String
  likes : List String
  comments : List Comment
  createdAt : Nat
  updatedAt : Nat
deriving DecidableEq, Repr

/-- A partial update: exactly the fields of `BlogInput`, each optional
(spec §4.1 `Partial<BlogInput>`). -/
structure BlogPatch where
  title : Option String := none
  content : Option String := none
  author : Option String := none
  imageUrl : Option String := none
  categories : Option (List String) := none
  tags : Option (List String) := none
deriving DecidableEq, Repr

/-- The persisted store of blog records. -/
abbrev Store := List Blog

/-- Modelled from the spec: `Repository.findById(id) -> Blog | NotFound`
(spec §4.1); the repository source is not under `src/`. -/
def findById (id : String) (store : Store) : Option Blog :=
  store.find? (fun b => b.id == id)

/-- Newest-first ordering on blogs: `a` precedes `b` when `a.createdAt`
is at least `b.createdAt` (spec §4.1 "ordered by createdAt descending"). -/
def newestFirst (a b : Blog) : Prop := b.createdAt ≤ a.createdAt

instance : DecidableRel newestFirst := fun a b => Nat.decLe b.createdAt a.createdAt

instance : IsTotal Blog newestFirst := ⟨fun a b => Nat.le_total b.createdAt a.createdAt⟩

instance : IsTrans Blog newestFirst :=
  ⟨fun _ _ _ hab hbc => Nat.le_trans hbc hab⟩

/-- Modelled from the spec: the repository's newest-first ordering of the
whole store (spec §4.1 `list` "returns blogs ordered by createdAt descending"). -/
def sortByNewest (store : Store) : List Blog :=
  List.insertionSort newestFirst store

/-- Modelled from the spec: "the effective skip count is `offset` if
`offset > 0`, otherwise `(page - 1) * limit`" (spec §4.1). -/
def effectiveSkip (page limit offset : Nat) : Nat :=
  if 0 < offset then offset else (page - 1) * limit

/-- Modelled from the spec: `Repository.list(page, limit, offset)` returns the
window of `limit` blogs after the effective skip in newest-first order, and
the full unpaginated count (spec §4.1); the repository source is not under
`src/`. -/
def repoList (page limit offset : Nat) (store : Store) : List Blog × Nat :=
  (((sortByNewest store).drop (effectiveSkip page limit offset)).take limit,
    store.length)

/-- Modelled from the spec: a partial update "applies only the fields present
in `patch` (absent fields are left untouched, not nulled)" and "bumps
`updatedAt`" (spec §4.1). -/
def applyPatch (b : Blog) (p : BlogPatch) (now : Nat) : Blog :=
  { b with
    title := p.title.getD b.title
    content := p.content.getD b.content
    author := p.author.getD b.author
    imageUrl := match p.imageUrl with
      | none => b.imageUrl
      | some s => some s
    categories := p.categories.getD b.categories
    tags := p.tags.getD b.tags
    updatedAt := now }

/-- Modelled from the spec: the repository persists an updated record in place
of the old one (spec §4.1 `update`). -/
def repoReplace (id : String) (b' : Blog) (store : Store) : Store :=
  store.map (fun x => if x.id == id then b' else x)

/-- Modelled from the spec: `Repository.delete(id)` removes the record; its
comments live inside the record, so they cascade (spec §4.1 `delete`). -/
def repoDelete (id : String) (store : Store) : Store :=
  store.filter (fun x => x.id != id)

/-- Service-level failures relevant to ownership-checked mutation
(spec §7 taxonomy). -/
inductive ServiceError where
  | NotFound
  | Forbidden
deriving DecidableEq, Repr

/-- Modelled from the spec: `updateBlog(actingUser, id, patch)` — loads the
blog; `NotFound` if absent; `Forbidden` if `blog.author != actingUser`;
otherwise applies the patch through the repository (spec §4.2); the service
source is not under `src/`.  The resulting store is returned alongside the
outcome so that the post-state is observable. -/
def updateBlog (actingUser : String) (id : String) (patch : BlogPatch)
    (now : Nat) (store : Store) : Except ServiceError Blog × Store :=
  match findById id store with
  | none => (.error .NotFound, store)
  | some b =>
      if b.author == actingUser then
        let b' := applyPatch b patch now
        (.ok b', repoReplace id b' store)
      else
        (.error .Forbidden, store)

/-- Modelled from the spec: `deleteBlogPost(actingUser, id)` — same ownership
check as update; `NotFound` if the post does not exist; `Forbidden` if the
acting user is not the author; otherwise deletes (spec §4.2); the service
source is not under `src/`. -/
def deleteBlogPost (actingUser : String) (id : String) (store : Store) :
    Except ServiceError Unit × Store :=
  match findById id store with
  | none => (.error .NotFound, store)
  | some b =>
      if b.author == actingUser then
        (.ok (), repoDelete id store)
      else
        (.error .Forbidden, store)

/-- The pagination query parameters a list request may carry, each optional
(spec §4.1, and swagger defaults in `src/routes/blog.ts` lines 173–188). -/
structure Query where
  page : Option Int := none
  limit : Option Int := none
  offset : Option Int := none
deriving DecidableEq, Repr

/-- Modelled from the spec: absent `page` defaults to 1, non-positive values
are coerced to the default (spec §4.1 defaults, §4.2 clamping). -/
def normPage (q : Option Int) : Nat :=
  match q with
  | none => 1
  | some p => if p ≤ 0 then 1 else p.toNat

/-- Modelled from the spec: absent `limit` defaults to 10, non-positive values
are coerced to the default (spec §4.1 defaults, §4.2 clamping). -/
def normLimit (q : Option Int) : Nat :=
  match q with
  | none => 10
  | some l => if l ≤ 0 then 10 else l.toNat

/-- Modelled from the spec: absent `offset` defaults to 0; a negative offset
is clamped to 0 (spec §4.1 defaults, §4.2 clamping). -/
def normOffset (q : Option Int) : Nat :=
  match q with
  | none => 0
  | some o => if o ≤ 0 then 0 else o.toNat

/-- The `200` body of a list request: items plus pagination metadata
(spec §6 `GET /blog`). -/
structure ListResult where
  items : List Blog
  page : Nat
  limit : Nat
  total : Nat
deriving DecidableEq, Repr

/-- Modelled from the spec: `listBlogs(page, limit, offset)` — normalizes the
query parameters and delegates to `Repository.list` (spec §4.2); the
controller source is not under `src/`. -/
def listBlogsService (q : Query) (store : Store) : ListResult :=
  let page := normPage q.page
  let limit := normLimit q.limit
  let offset := normOffset q.offset
  let r := repoList page limit offset store
  { items := r.1, page := page, limit := limit, total := r.2 }

/-! ## The router, embedded from `src/routes/blog.ts` -/

/-- HTTP methods used by the router. -/
inductive Method where
  | GET
  | POST
  | PUT
  | DELETE
deriving DecidableEq, Repr

/-- The three path patterns registered in `src/routes/blog.ts`:
`"/create"`, `"/"` and `"/:id"`. -/
inductive PathPattern where
  | root
  | createPath
  | idParam
deriving DecidableEq, Repr

/-- The distinct functions appearing in the router's handler chains:
the auth middleware and the four controllers. -/
inductive Handler where
  | authMiddleware
  | createBlogController
  | listBlogsHandler
  | updateBlogController
  | deleteBlogPostHandler
deriving DecidableEq, Repr

/-- One `blogRouter.<method>(path, ...handlers)` registration. -/
structure Registration where
  method : Method
  path : PathPattern
  chain : List Handler
deriving DecidableEq, Repr

/-- The six registrations of `src/routes/blog.ts`, in source order
(lines 164, 201, 228, 266, 302, 326). -/
def blogRouter : List Registration :=
  [ ⟨.POST, .createPath, [.authMiddleware, .createBlogController]⟩,
    ⟨.GET, .root, [.listBlogsHandler]⟩,
    ⟨.GET, .root, [.authMiddleware, .listBlogsHandler]⟩,
    ⟨.PUT, .idParam, [.authMiddleware, .updateBlogController]⟩,
    ⟨.GET, .root, [.authMiddleware, .listBlogsHandler]⟩,
    ⟨.DELETE, .idParam, [.deleteBlogPostHandler]⟩ ]

/-- Express path matching on the segments below the router's mount point:
`"/"` matches the empty segment list, `"/create"` the single segment
`create`, and `"/:id"` any single non-empty segment. -/
def patMatches : PathPattern → List String → Bool
  | .root, [] => true
  | .createPath, [s] => s == "create"
  | .idParam, [s] => s != ""
  | _, _ => false

/-- A registration handles a request when both method and path match. -/
def routeMatches (m : Method) (p : List String) (r : Registration) : Bool :=
  (m == r.method) && patMatches r.path p

/-- An inbound HTTP request: method, path segments under `/blog`, the
credential (`some u` is a valid credential resolving user `u`, spec §6 Auth
Gate), pagination query, and the parsed body for update requests. -/
structure Request where
  method : Method
  path : List String
  credential : Option String := none
  query : Query := {}
  body : BlogPatch := {}
deriving Repr

/-- A response body. -/
inductive Body where
  | empty
  | listing (r : ListResult)
  | blog (b : Blog)
deriving DecidableEq, Repr

/-- The observable outcome of dispatching a request: status code, body, and
the handlers that actually executed, in order. -/
structure HttpResult where
  status : Nat
  body : Body
  executed : List Handler
deriving DecidableEq, Repr

/-- Modelled from the spec: the controllers' behavior (`createBlogController`,
`listBlogs`, `updateBlogController`, `deleteBlogPost` are not under `src/`).
Each controller translates its service outcome into the documented status
(spec §6, §7).  `authedUser` is the user set by the auth middleware, absent
when no auth middleware ran on the chain. -/
def runController (h : Handler) (req : Request) (now : Nat) (store : Store)
    (authedUser : Option String) : Nat × Body :=
  match h with
  | .authMiddleware => (500, .empty)
  | .createBlogController => (201, .empty)
  | .listBlogsHandler => (200, .listing (listBlogsService req.query store))
  | .updateBlogController =>
      match updateBlog (authedUser.getD "") (req.path.headD "") req.body now store with
      | (.ok b', _) => (200, .blog b')
      | (.error .NotFound, _) => (404, .empty)
      | (.error .Forbidden, _) => (403, .empty)
  | .deleteBlogPostHandler =>
      match deleteBlogPost (authedUser.getD "") (req.path.headD "") store with
      | (.ok _, _) => (204, .empty)
      | (.error .NotFound, _) => (404, .empty)
      | (.error .Forbidden, _) => (403, .empty)

/-- Express chain semantics: the auth middleware rejects a request without a
valid credential with `401` and otherwise sets the resolved user and calls
`next`; a controller ends the response. -/
def runChain (req : Request) (now : Nat) (store : Store)
    (authedUser : Option String) : List Handler → HttpResult
  | [] => { status := 404, body := .empty, executed := [] }
  | .authMiddleware :: rest =>
      match req.credential with
      | none => { status := 401, body := .empty, executed := [.authMiddleware] }
      | some u =>
          let r := runChain req now store (some u) rest
          { r with executed := .authMiddleware :: r.executed }
  | h :: _ =>
      let (st, bd) := runController h req now store authedUser
      { status := st, body := bd, executed := [h] }

/-- Express dispatch: the first registration whose method and path match
handles the request; with none, the router falls through (`404`). -/
def dispatch (req : Request) (now : Nat) (store : Store) : HttpResult :=
  match blogRouter.find? (routeMatches req.method req.path) with
  | none => { status := 404, body := .empty, executed := [] }
  | some reg => runChain req now store none reg.chain

/-- A concrete blog record used to witness the hypothesised theorems. -/
def demoBlogA : Blog :=
  { id := "a", title := "A", content := "ca", author := "alice",
    imageUrl := none, categories := [], tags := [], likes := [],
    comments := [], createdAt := 5, updatedAt := 5 }

/-- A second concrete blog record, by a different author. -/
def demoBlogB : Blog :=
  { id := "b", title := "B", content := "cb", author := "bob",
    imageUrl := some "u", categories := ["c1"], tags := ["t1"], likes := [],
    comments := [⟨"m1", "carol", "hi", 6⟩], createdAt := 3, updatedAt := 4 }

/-- A third concrete blog record. -/
def demoBlogC : Blog :=
  { id := "c", title := "C", content := "cc", author := "alice",
    imageUrl := none, categories := [], tags := [], likes := [],
    comments := [], createdAt := 9, updatedAt := 9 }

/-- A small concrete store used to witness the hypothesised theorems. -/
def demoStore : Store := [demoBlogA, demoBlogB, demoBlogC]

/-! ## Theorems for the claims -/

/-- C1: the claim says the `DELETE /blog/:id` route authenticates the caller
before the handler runs, the same way the `PUT` route does.  The code
contradicts this (and the delete route's own swagger documentation, which
says "requires authentication"): the delete registration's chain is just the
controller, with no auth middleware, so an unauthenticated `DELETE` request
reaches `deleteBlogPost` and is answered by the controller (here `403`,
because the stored author `bob` differs from the absent acting user) instead
of being rejected with `401` as an identical unauthenticated `PUT` request
is.  The service-level ownership check itself is as claimed (see
`c6_nonauthor_forbidden_unchanged`); the route-level auth is what is
missing. -/
theorem c1_delete_route_lacks_auth :
    (blogRouter.get? 5).map Registration.chain
      = some [Handler.deleteBlogPostHandler] ∧
    (blogRouter.get? 3).map Registration.chain
      = some [Handler.authMiddleware, Handler.updateBlogController] ∧
    (dispatch { method := .DELETE, path := ["b"] } 7 demoStore).executed
      = [Handler.deleteBlogPostHandler] ∧
    (dispatch { method := .DELETE, path := ["b"] } 7 demoStore).status = 403 ∧
    (dispatch { method := .PUT, path := ["b"] } 7 demoStore).status = 401 ∧
    (dispatch { method := .PUT, path := ["b"] } 7 demoStore).executed
      = [Handler.authMiddleware] := by
  decide

/-- C2: the first `GET "/"` registration (line 201, without `authMiddleware`)
is the first match for every `GET` request to the router root, so the two
later `GET "/"` registrations (lines 228 and 302, with `authMiddleware`) —
which would also match — are never invoked: listing responds `200` and runs
only the list controller, whatever credential the request carries. -/
theorem c2_first_get_registration_wins (cred : Option String) (q : Query)
    (b : BlogPatch) (now : Nat) (store : Store) :
    blogRouter.findIdx (routeMatches .GET []) = 1 ∧
    blogRouter.find? (routeMatches .GET [])
      = some ⟨.GET, .root, [.listBlogsHandler]⟩ ∧
    ((blogRouter.get? 2).map (routeMatches .GET [])) = some true ∧
    ((blogRouter.get? 4).map (routeMatches .GET [])) = some true ∧
    (dispatch { method := .GET, path := [], credential := cred, query := q,
                body := b } now store).status = 200 ∧
    (dispatch { method := .GET, path := [], credential := cred, query := q,
                body := b } now store).executed = [Handler.listBlogsHandler] := by
  exact ⟨by decide, by decide, by decide, by decide, rfl, rfl⟩

/-- C5: no route is registered for fetching a single blog post: a `GET`
request to `/blog/:id` (one path segment) matches no registration of this
router, for every id, and falls through with `404` without executing any
handler. -/
theorem c5_no_single_post_route (s : String) (cred : Option String)
    (q : Query) (b : BlogPatch) (now : Nat) (store : Store) :
    blogRouter.find? (routeMatches .GET [s]) = none ∧
    dispatch { method := .GET, path := [s], credential := cred, query := q,
               body := b } now store
      = { status := 404, body := .empty, executed := [] } := by
  exact ⟨rfl, rfl⟩

/-- C3: the unauthenticated and authenticated `GET "/"` registrations invoke
the same list controller: the chains registered at lines 201 and 302 are as
in source, and for every request carrying the same pagination query both
chains produce the same status and body whenever they reach the controller
(any credential for the line-201 chain, a valid credential for the line-302
chain); the body is `listBlogsService` of the query and store in both cases,
independent of the credential. -/
theorem c3_list_variants_identical (u : String) (cred : Option String)
    (q : Query) (b : BlogPatch) (now : Nat) (store : Store) :
    (blogRouter.get? 1).map Registration.chain
      = some [Handler.listBlogsHandler] ∧
    (blogRouter.get? 4).map Registration.chain
      = some [Handler.authMiddleware, Handler.listBlogsHandler] ∧
    (runChain { method := .GET, path := [], credential := some u, query := q,
                body := b } now store none
        [Handler.listBlogsHandler]).status
      = (runChain { method := .GET, path := [], credential := some u,
                    query := q, body := b } now store none
        [Handler.authMiddleware, Handler.listBlogsHandler]).status ∧
    (runChain { method := .GET, path := [], credential := some u, query := q,
                body := b } now store none
        [Handler.listBlogsHandler]).body
      = (runChain { method := .GET, path := [], credential := some u,
                    query := q, body := b } now store none
        [Handler.authMiddleware, Handler.listBlogsHandler]).body ∧
    (runChain { method := .GET, path := [], credential := cred, query := q,
                body := b } now store none
        [Handler.listBlogsHandler]).body
      = Body.listing (listBlogsService q store) := by
  exact ⟨by decide, by decide, rfl, rfl, rfl⟩

/-- C4: `POST /blog/create` and `PUT /blog/:id` both place `authMiddleware`
before their controller, and an unauthenticated request to either route is
answered `401` with only the auth middleware having executed — the create
and update controllers never run. -/
theorem c4_create_update_require_auth (q : Query) (b : BlogPatch) (now : Nat)
    (store : Store) (id : String) (h : id ≠ "") :
    (blogRouter.get? 0).map Registration.chain
      = some [Handler.authMiddleware, Handler.createBlogController] ∧
    (blogRouter.get? 3).map Registration.chain
      = some [Handler.authMiddleware, Handler.updateBlogController] ∧
    dispatch { method := .POST, path := ["create"], credential := none,
               query := q, body := b } now store
      = { status := 401, body := .empty, executed := [.authMiddleware] } ∧
    dispatch { method := .PUT, path := [id], credential := none,
               query := q, body := b } now store
      = { status := 401, body := .empty, executed := [.authMiddleware] } := by
  have hid : (id != "") = true := bne_iff_ne.mpr h
  refine ⟨by decide, by decide, rfl, ?_⟩
  simp [dispatch, blogRouter, List.find?, routeMatches, patMatches, hid,
    runChain, show (Method.PUT == Method.POST) = false from rfl,
    show (Method.PUT == Method.GET) = false from rfl,
    show (Method.PUT == Method.PUT) = true from rfl]

/-- Witness for C4 at a concrete unauthenticated request. -/
theorem c4_witness :
    (blogRouter.get? 0).map Registration.chain
      = some [Handler.authMiddleware, Handler.createBlogController] ∧
    (blogRouter.get? 3).map Registration.chain
      = some [Handler.authMiddleware, Handler.updateBlogController] ∧
    dispatch { method := .POST, path := ["create"], credential := none,
               query := {}, body := {} } 0 demoStore
      = { status := 401, body := .empty, executed := [.authMiddleware] } ∧
    dispatch { method := .PUT, path := ["b"], credential := none,
               query := {}, body := {} } 0 demoStore
      = { status := 401, body := .empty, executed := [.authMiddleware] } :=
  c4_create_update_require_auth {} {} 0 demoStore "b" (by decide)

/-- C6: a non-author acting user attempting `updateBlog` or `deleteBlogPost`
on an existing blog gets `Forbidden`, and the store is returned exactly
unchanged (no field changes, no `updatedAt` bump, no comments removed). -/
theorem c6_nonauthor_forbidden_unchanged (store : Store) (b : Blog)
    (u id : String) (patch : BlogPatch) (now : Nat)
    (hfind : findById id store = some b) (hne : u ≠ b.author) :
    updateBlog u id patch now store = (.error .Forbidden, store) ∧
    deleteBlogPost u id store = (.error .Forbidden, store) := by
  have hb : (b.author == u) = false := by
    exact beq_eq_false_iff_ne.mpr (Ne.symm hne)
  constructor
  · simp [updateBlog, hfind, hb]
  · simp [deleteBlogPost, hfind, hb]

/-- Witness for C6: `bob` can neither update nor delete `alice`'s post. -/
theorem c6_witness :
    updateBlog "bob" "a" {} 7 demoStore = (.error .Forbidden, demoStore) ∧
    deleteBlogPost "bob" "a" demoStore = (.error .Forbidden, demoStore) :=
  c6_nonauthor_forbidden_unchanged demoStore demoBlogA "bob" "a" {} 7
    (by decide) (by decide)

/-- C7: the window returned by `list` starts after exactly the effective
skip count of items, which is `offset` when `offset > 0` and
`(page - 1) * limit` otherwise; when `offset > 0` the whole result is
independent of `page` (offset alone determines the skip). -/
theorem c7_effective_skip (page page' limit offset : Nat) (store : Store) :
    ((repoList page limit offset store).1
      = ((sortByNewest store).drop (effectiveSkip page limit offset)).take
          limit) ∧
    (0 < offset → effectiveSkip page limit offset = offset ∧
      repoList page limit offset store = repoList page' limit offset store) ∧
    (offset = 0 → effectiveSkip page limit offset = (page - 1) * limit) := by
  refine ⟨rfl, fun hoff => ⟨?_, ?_⟩, fun hz => ?_⟩
  · simp [effectiveSkip, hoff]
  · simp [repoList, effectiveSkip, hoff]
  · simp [effectiveSkip, hz]

/-- Witness for C7: with `offset = 5` the skip is 5 and the result ignores
`page` (here pages 2 and 9 agree). -/
theorem c7_witness :
    effectiveSkip 2 3 5 = 5 ∧
    repoList 2 3 5 demoStore = repoList 9 3 5 demoStore :=
  (c7_effective_skip 2 9 3 5 demoStore).2.1 (by decide)

/-- C8: for every store and parameters, `list` returns at most `limit`
items, the returned window is sorted newest-first (`createdAt` descending),
and the window is the contiguous stretch of the sorted store immediately
after the skipped prefix — no item is double-counted across the cursor. -/
theorem c8_window_bounded_sorted_contiguous (page limit offset : Nat)
    (store : Store) :
    (repoList page limit offset store).1.length ≤ limit ∧
    List.Sorted newestFirst (repoList page limit offset store).1 ∧
    (sortByNewest store).take (effectiveSkip page limit offset + limit)
      = (sortByNewest store).take (effectiveSkip page limit offset)
        ++ (repoList page limit offset store).1 := by
  refine ⟨?_, ?_, ?_⟩
  · exact (List.length_take _ _).le.trans (Nat.min_le_left _ _)
  · have hs : List.Sorted newestFirst (sortByNewest store) :=
      List.sorted_insertionSort newestFirst store
    exact List.Pairwise.sublist
      ((List.take_sublist _ _).trans (List.drop_sublist _ _)) hs
  · simpa [repoList] using List.take_add (sortByNewest store)
      (effectiveSkip page limit offset) limit

/-- C9: an update by the original author applies only the fields present in
the patch — each absent field keeps its pre-update value, each present field
takes the patched value — and `updatedAt` strictly increases (the repository
bumps it to the current time, which is later than the stored stamp). -/
theorem c9_partial_update_frame (store : Store) (b : Blog) (id : String)
    (patch : BlogPatch) (now : Nat)
    (hfind : findById id store = some b) (hnow : b.updatedAt < now) :
    ∃ b', (updateBlog b.author id patch now store).1 = .ok b' ∧
      (patch.title = none → b'.title = b.title) ∧
      (patch.content = none → b'.content = b.content) ∧
      (patch.author = none → b'.author = b.author) ∧
      (patch.imageUrl = none → b'.imageUrl = b.imageUrl) ∧
      (patch.categories = none → b'.categories = b.categories) ∧
      (patch.tags = none → b'.tags = b.tags) ∧
      (∀ t, patch.title = some t → b'.title = t) ∧
      (∀ t, patch.content = some t → b'.content = t) ∧
      b'.id = b.id ∧ b'.createdAt = b.createdAt ∧
      b.updatedAt < b'.updatedAt := by
  refine ⟨applyPatch b patch now, ?_, ?_, ?_, ?_, ?_, ?_, ?_, ?_, ?_,
    rfl, rfl, ?_⟩
  · simp [updateBlog, hfind]
  · intro ht; simp [applyPatch, ht]
  · intro hc; simp [applyPatch, hc]
  · intro ha; simp [applyPatch, ha]
  · intro hi; simp [applyPatch, hi]
  · intro hcat; simp [applyPatch, hcat]
  · intro htag; simp [applyPatch, htag]
  · intro t ht; simp [applyPatch, ht]
  · intro t ht; simp [applyPatch, ht]
  · exact hnow

/-- Witness for C9: `alice` patches only the title of her post `a`. -/
theorem c9_witness :
    ∃ b', (updateBlog demoBlogA.author "a" { title := some "T" } 10
        demoStore).1 = .ok b' ∧
      (({ title := some "T" } : BlogPatch).title = none →
        b'.title = demoBlogA.title) ∧
      (({ title := some "T" } : BlogPatch).content = none →
        b'.content = demoBlogA.content) ∧
      (({ title := some "T" } : BlogPatch).author = none →
        b'.author = demoBlogA.author) ∧
      (({ title := some "T" } : BlogPatch).imageUrl = none →
        b'.imageUrl = demoBlogA.imageUrl) ∧
      (({ title := some "T" } : BlogPatch).categories = none →
        b'.categories = demoBlogA.categories) ∧
      (({ title := some "T" } : BlogPatch).tags = none →
        b'.tags = demoBlogA.tags) ∧
      (∀ t, ({ title := some "T" } : BlogPatch).title = some t →
        b'.title = t) ∧
      (∀ t, ({ title := some "T" } : BlogPatch).content = some t →
        b'.content = t) ∧
      b'.id = demoBlogA.id ∧ b'.createdAt = demoBlogA.createdAt ∧
      demoBlogA.updatedAt < b'.updatedAt :=
  c9_partial_update_frame demoStore demoBlogA "a" { title := some "T" } 10
    (by decide) (by decide)

/-- C10: a list request with all pagination parameters absent behaves
exactly as if `page=1`, `limit=10`, `offset=0` had been supplied. -/
theorem c10_list_defaults (store : Store) :
    listBlogsService {} store
      = listBlogsService { page := some 1, limit := some 10,
                           offset := some 0 } store := by
  rfl

end BlogApi
